import Mathlib

/-!
Shallow embedding of the LCOE & PPA calculation engine (`calculator.js`).

JavaScript numbers are modelled as exact rationals (`ℚ`); the decimal
literals of the source (`1e-5`, `4.5`, …) denote the corresponding
rationals.  The only operation that leaves `ℚ` is the `period`-th root in
`calculateMIRR`, which is modelled over `ℝ`.

The imperative `for`/`forEach` loops of the source are rendered as maps and
folds: every loop accumulator becomes a fold (or, when the accumulator is a
plain running sum over the loop range, a sum over the mapped range), and the
two in-place update passes (`cumulativeCF`, the supplier `tariff` pass)
become structurally recursive list transformations.
-/

namespace LCOE

/-- Global financial assumptions shared by all projects
(the `global` object of the source). -/
structure Global where
  period : ℕ
  wacc : ℚ
  degradation : ℚ
  tariffEscalation : ℚ
  opexInflation : ℚ
deriving DecidableEq, Repr

/-- The three opex item types dispatched on in `calculateProject`. -/
inductive OpexType where
  | per_kwp
  | flat
  | per_kwh
deriving DecidableEq, Repr

/-- One operating-cost schedule item.  `freq` is `none` when the field is
absent from the object. -/
structure OpexItem where
  type : OpexType
  unit : ℚ
  freq : Option ℚ
deriving DecidableEq, Repr

/-- A project.  `utilityTariff` is `none` when the source value is missing
or non-finite (`Number.isFinite` fails); every rational models a finite
JS number. -/
structure Project where
  kwp : ℚ
  prodHour : ℚ
  capex : ℚ
  utilityTariff : Option ℚ
  ppaDiscount : ℚ
  enabled : Bool
  opex : List OpexItem
deriving DecidableEq, Repr

/-- A supplier owning an ordered list of projects. -/
structure Supplier where
  name : String
  enabled : Bool
  projects : List Project
deriving DecidableEq, Repr

/-- The external `window.ENV_FACTORS` configuration constants.  They are not
part of this repository's engine source, so they are passed as an explicit
argument. -/
structure EnvFactors where
  CO2_FACTOR : ℚ
  TREE_FACTOR : ℚ
deriving DecidableEq, Repr

/-- Environmental impact block computed by `calculateFinancials`. -/
structure Env where
  co2Year : ℚ
  treesYear : ℚ
deriving DecidableEq, Repr

/-- One per-project yearly record, as pushed onto `results.yearlyData`.
`cumulativeCF` is written by a second pass in the source; the first pass
leaves it at `0` here (the key is simply absent in the source until then). -/
structure YearRecord where
  year : ℕ
  energy : ℚ
  tariff : ℚ
  revenue : ℚ
  opex : ℚ
  netCF : ℚ
  pvNetCF : ℚ
  cumulativeCF : ℚ
deriving DecidableEq, Repr

/-- One aggregated supplier yearly record (`agg.yearlyData` entries).
`tariff` and `cumulativeCF` are written by the metrics pass; the
initialisation leaves them at `0` (the source's initial object carries
`cumulativeCF: 0` and no `tariff` key). -/
structure AggYearRecord where
  year : ℕ
  energy : ℚ
  revenue : ℚ
  opex : ℚ
  netCF : ℚ
  cumulativeCF : ℚ
  tariff : ℚ
deriving DecidableEq, Repr

/-- The metric fields written by `calculateFinancials`.  The source also
stores `res.irr = calculateIRR(res.cashflows)` and
`res.mirr = calculateMIRR(res.cashflows, global)`; both are pure functions
of fields already present in the result and are kept as standalone
functions here (`calculateMIRR` needs real exponentiation). -/
structure Metrics where
  lcoeCapex : ℚ
  lcoeOpex : ℚ
  lcoe : ℚ
  avgTariff : ℚ
  profitMargin : ℚ
  payback : ℚ
  npv : ℚ
  roi : ℚ
  env : Option Env
deriving DecidableEq, Repr

/-- Result of `calculateProject` (when the project is enabled). -/
structure ProjectResult where
  yearlyData : List YearRecord
  pvEnergy : ℚ
  pvOpex : ℚ
  pvRevenue : ℚ
  cashflows : List ℚ
  totalCapex : ℚ
  totalRevenue : ℚ
  totalOpexNominal : ℚ
  metrics : Metrics
deriving DecidableEq, Repr

/-- Result of `calculateSupplier` (when the supplier is enabled and has at
least one enabled project).  Each entry of `projects` is the corresponding
project's result spread together with its `meta` source project
(`{ ...r, meta: supplier.projects[i] }`), or `none` for a disabled project. -/
structure SupplierResult where
  name : String
  totalKwp : ℚ
  totalCapex : ℚ
  pvEnergy : ℚ
  pvOpex : ℚ
  pvRevenue : ℚ
  totalRevenue : ℚ
  totalOpexNominal : ℚ
  cashflows : List ℚ
  yearlyData : List AggYearRecord
  metrics : Metrics
  projects : List (Option (ProjectResult × Project))
deriving DecidableEq, Repr

/-! ### Financial metrics module -/

/-- Inner loop of `calculatePayback`: walk the flows of years
`year, year+1, …` with the running `cumulative`. -/
def paybackGo (period : ℕ) : List ℚ → ℕ → ℚ → ℚ
  | [], _, _ => (period : ℚ) + 1
  | annual :: rest, year, cumulative =>
    let prev := cumulative
    let cum := cumulative + annual
    if 0 ≤ cum then
      if annual ≤ 0 then (year : ℚ)
      else ((year : ℚ) - 1) + |prev| / annual
    else paybackGo period rest (year + 1) cum

/-- `calculatePayback(cashflows, period)` from the source. -/
def calculatePayback (cashflows : List ℚ) (period : ℕ) : ℚ :=
  if cashflows.length < 2 then (period : ℚ) + 1
  else
    match cashflows with
    | [] => (period : ℚ) + 1
    | c0 :: rest => paybackGo period rest 1 c0

/-- `calculateROI(totalRevenue, totalOpex, totalCapex)` from the source. -/
def calculateROI (totalRevenue totalOpex totalCapex : ℚ) : ℚ :=
  let netProfit := totalRevenue - totalOpex - totalCapex
  if totalCapex = 0 then 0 else netProfit / totalCapex * 100

/-- Inner loop of `calculateIRR`: the fold over `t` computing `(npv, dnpv)`
for the current guess. -/
def irrNpvDnpv (cashflows : List ℚ) (guess : ℚ) : ℚ × ℚ :=
  cashflows.enum.foldl
    (fun acc tc =>
      let f := (1 + guess) ^ tc.1
      (acc.1 + tc.2 / f, acc.2 - (tc.1 : ℚ) * tc.2 / (f * (1 + guess))))
    (0, 0)

/-- Outer Newton-Raphson loop of `calculateIRR`, with the remaining
iteration budget as fuel.  Exhausted fuel is the source's `return 0` after
the `for` loop; a derivative below `1e-6` is the source's `break` followed
by that same `return 0`. -/
def irrGo (cashflows : List ℚ) : ℕ → ℚ → ℚ
  | 0, _ => 0
  | fuel + 1, guess =>
    let nd := irrNpvDnpv cashflows guess
    if |nd.2| < 1 / 1000000 then 0
    else
      let val := guess - nd.1 / nd.2
      if |val - guess| < 1 / 100000 then val * 100
      else irrGo cashflows fuel val

/-- `calculateIRR(cashflows)` from the source: 100 Newton-Raphson
iterations starting from guess `0.1`. -/
def calculateIRR (cashflows : List ℚ) : ℚ :=
  irrGo cashflows 100 (1 / 10)

/-- Fold of `calculateMIRR` partitioning the flows into the future value of
the non-negative ones and the present value of the negative ones.  The
source's `Math.pow(1 + r, n - t)` subtracts JS numbers, so the exponent is
an integer, not a truncated natural. -/
def mirrSums (cashflows : List ℚ) (r : ℚ) (n : ℕ) : ℚ × ℚ :=
  cashflows.enum.foldl
    (fun acc tc =>
      if 0 ≤ tc.2 then (acc.1 + tc.2 * (1 + r) ^ ((n : ℤ) - tc.1), acc.2)
      else (acc.1, acc.2 + |tc.2| / (1 + r) ^ tc.1))
    (0, 0)

/-- `calculateMIRR(cashflows, global)` from the source.  The final
`Math.pow(x, 1/n)` is real exponentiation, hence the result lives in `ℝ`. -/
noncomputable def calculateMIRR (cashflows : List ℚ) (g : Global) : ℝ :=
  let r := g.wacc / 100
  let n := g.period
  let s := mirrSums cashflows r n
  if s.2 = 0 then 0
  else (((s.1 : ℝ) / (s.2 : ℝ)) ^ ((1 : ℝ) / (n : ℝ)) - 1) * 100

/-- `calculateFinancials(res, global)` from the source, as a function of the
core result fields it reads.  `y1energy` is `res.yearlyData[0].energy` when
`res.yearlyData` is non-empty (`none` otherwise); `irr` and `mirr` are kept
as the standalone functions above. -/
def calculateFinancials (g : Global) (ef : EnvFactors)
    (pvEnergy totalCapex pvOpex pvRevenue totalRevenue totalOpexNominal : ℚ)
    (cashflows : List ℚ) (y1energy : Option ℚ) : Metrics :=
  let lcoeCapex := if 0 < pvEnergy then totalCapex / pvEnergy else 0
  let lcoeOpex := if 0 < pvEnergy then pvOpex / pvEnergy else 0
  let lcoe := if 0 < pvEnergy then lcoeCapex + lcoeOpex else 0
  let avgTariff := if 0 < pvEnergy then pvRevenue / pvEnergy else 0
  let profitMargin := if 0 < pvEnergy then avgTariff - lcoe else 0
  { lcoeCapex := lcoeCapex
    lcoeOpex := lcoeOpex
    lcoe := lcoe
    avgTariff := avgTariff
    profitMargin := profitMargin
    payback := calculatePayback cashflows g.period
    npv := pvRevenue - (totalCapex + pvOpex)
    roi := calculateROI totalRevenue totalOpexNominal totalCapex
    env := y1energy.map (fun e =>
      { co2Year := e * ef.CO2_FACTOR
        treesYear := e * ef.CO2_FACTOR / ef.TREE_FACTOR }) }

/-! ### Project calculator -/

/-- JS `x || 1` on a numeric field: absent (and, by JS falsiness, zero)
falls back to `1`. -/
def freqOrOne : Option ℚ → ℚ
  | none => 1
  | some v => if v = 0 then 1 else v

/-- `Number.isFinite(project.utilityTariff) ? project.utilityTariff : 4.5`. -/
def utilityTariffOf (p : Project) : ℚ :=
  match p.utilityTariff with
  | some x => x
  | none => 9 / 2

/-- Year-1 sale price `sellY1 = utilityTariff * (1 - ppaDiscount/100)`. -/
def sellY1 (p : Project) : ℚ :=
  utilityTariffOf p * (1 - p.ppaDiscount / 100)

/-- Discount factor `df = 1 / (1 + wacc/100)^t`. -/
def dfOf (g : Global) (t : ℕ) : ℚ :=
  1 / (1 + g.wacc / 100) ^ t

/-- `annualEnergy = e1 * (1 - deg)^(t-1)` with `e1 = kwp * prodHour * 365`. -/
def energyOf (p : Project) (g : Global) (t : ℕ) : ℚ :=
  p.kwp * p.prodHour * 365 * (1 - g.degradation / 100) ^ (t - 1)

/-- The `val` of one opex item inside the year loop. -/
def opexVal (p : Project) (energy : ℚ) (item : OpexItem) : ℚ :=
  match item.type with
  | .per_kwp => item.unit * p.kwp * freqOrOne item.freq
  | .flat => item.unit
  | .per_kwh => item.unit * energy

/-- The `annualOpex` accumulation over `project.opex` for year `t`. -/
def opexOf (p : Project) (g : Global) (t : ℕ) : ℚ :=
  p.opex.foldl
    (fun acc item =>
      acc + opexVal p (energyOf p g t) item * (1 + g.opexInflation / 100) ^ (t - 1))
    0

/-- `currentTariff = sellY1 * (1 + esc)^(t-1)`. -/
def tariffOf (p : Project) (g : Global) (t : ℕ) : ℚ :=
  sellY1 p * (1 + g.tariffEscalation / 100) ^ (t - 1)

/-- `annualRevenue = annualEnergy * currentTariff`. -/
def revenueOf (p : Project) (g : Global) (t : ℕ) : ℚ :=
  energyOf p g t * tariffOf p g t

/-- `netCF = annualRevenue - annualOpex`. -/
def netCFOf (p : Project) (g : Global) (t : ℕ) : ℚ :=
  revenueOf p g t - opexOf p g t

/-- The record pushed onto `results.yearlyData` for year `t`
(`cumulativeCF` is filled by the second pass). -/
def projectYear (p : Project) (g : Global) (t : ℕ) : YearRecord :=
  { year := t
    energy := energyOf p g t
    tariff := tariffOf p g t
    revenue := revenueOf p g t
    opex := opexOf p g t
    netCF := netCFOf p g t
    pvNetCF := netCFOf p g t * dfOf g t
    cumulativeCF := 0 }

/-- The second pass of `calculateProject`: `cumulative += d.netCF;
d.cumulativeCF = cumulative` starting from `cashflows[0]`. -/
def addCumulative : ℚ → List YearRecord → List YearRecord
  | _, [] => []
  | cum, d :: rest =>
    let c := cum + d.netCF
    { d with cumulativeCF := c } :: addCumulative c rest

/-- The `some`-branch of `calculateProject`: the result built for an
enabled project.  Each loop accumulator of the source is the sum of its
per-iteration increments over `t = 1 … period`. -/
def projectBody (p : Project) (g : Global) (ef : EnvFactors) : ProjectResult :=
  let ts := List.range' 1 g.period
  let cashflows := -p.capex :: ts.map (netCFOf p g)
  let yearly := addCumulative (-p.capex) (ts.map (projectYear p g))
  let pvEnergy := (ts.map (fun t => energyOf p g t * dfOf g t)).sum
  let pvOpex := (ts.map (fun t => opexOf p g t * dfOf g t)).sum
  let pvRevenue := (ts.map (fun t => revenueOf p g t * dfOf g t)).sum
  let totalRevenue := (ts.map (revenueOf p g)).sum
  let totalOpexNominal := (ts.map (opexOf p g)).sum
  { yearlyData := yearly
    pvEnergy := pvEnergy
    pvOpex := pvOpex
    pvRevenue := pvRevenue
    cashflows := cashflows
    totalCapex := p.capex
    totalRevenue := totalRevenue
    totalOpexNominal := totalOpexNominal
    metrics := calculateFinancials g ef pvEnergy p.capex pvOpex pvRevenue
      totalRevenue totalOpexNominal cashflows (yearly.head?.map (·.energy)) }

/-- `calculateProject(project, global)` from the source; `none` is the
source's `null`. -/
def calculateProject (p : Project) (g : Global) (ef : EnvFactors) :
    Option ProjectResult :=
  if !p.enabled then none else some (projectBody p g ef)

/-! ### Supplier aggregator -/

/-- `r.cashflows.forEach((cf, t) => agg.cashflows[t] += cf)`: add a
project's series into the accumulator, index-aligned.  Both series have
length `period + 1` by construction, so the out-of-range cases are
unreachable in any call the source makes. -/
def addInto : List ℚ → List ℚ → List ℚ
  | acc, [] => acc
  | [], _ :: _ => []
  | a :: acc, x :: xs => (a + x) :: addInto acc xs

/-- `r.yearlyData.forEach((yd, i) => { agg.yearlyData[i].energy += yd.energy; … })`:
add a project's yearly records into the aggregate records, index-aligned
(both lists have length `period` by construction). -/
def addYears : List AggYearRecord → List YearRecord → List AggYearRecord
  | acc, [] => acc
  | [], _ :: _ => []
  | a :: acc, y :: ys =>
    { a with
      energy := a.energy + y.energy
      revenue := a.revenue + y.revenue
      opex := a.opex + y.opex
      netCF := a.netCF + y.netCF } :: addYears acc ys

/-- The supplier metrics pass: `cumulative += cashflows[i+1];
d.cumulativeCF = cumulative; d.tariff = d.energy > 0 ? revenue/energy : 0`.
`cfs` is the tail of the aggregate series (`cashflows[1], cashflows[2], …`);
it never runs out in any call the source makes. -/
def aggFinish (cfs : List ℚ) (cum : ℚ) : List AggYearRecord → List AggYearRecord
  | [] => []
  | d :: rest =>
    let c := cum + cfs.headD 0
    { d with
      cumulativeCF := c
      tariff := if 0 < d.energy then d.revenue / d.energy else 0 }
      :: aggFinish cfs.tail c rest

/-- The fresh aggregate yearly records
(`new Array(period).fill(null).map((_, i) => ({year: i+1, …: 0}))`). -/
def initAggYears (period : ℕ) : List AggYearRecord :=
  (List.range period).map (fun i =>
    { year := i + 1, energy := 0, revenue := 0, opex := 0, netCF := 0,
      cumulativeCF := 0, tariff := 0 })

/-- The `some`-branch of `calculateSupplier`, given the non-empty list
`active` of the enabled projects' results and the full positional list
`projResults`. -/
def supplierBody (s : Supplier) (g : Global) (ef : EnvFactors)
    (projResults : List (Option ProjectResult))
    (active : List ProjectResult) : SupplierResult :=
  let totalCapex := (active.map (·.totalCapex)).sum
  let pvEnergy := (active.map (·.pvEnergy)).sum
  let pvOpex := (active.map (·.pvOpex)).sum
  let pvRevenue := (active.map (·.pvRevenue)).sum
  let totalRevenue := (active.map (·.totalRevenue)).sum
  let totalOpexNominal := (active.map (·.totalOpexNominal)).sum
  let cashflows := active.foldl (fun acc r => addInto acc r.cashflows)
    (List.replicate (g.period + 1) 0)
  let yearly0 := active.foldl (fun acc r => addYears acc r.yearlyData)
    (initAggYears g.period)
  let totalKwp := s.projects.foldl
    (fun acc p => if p.enabled then acc + p.kwp else acc) 0
  let yearly := aggFinish cashflows.tail (cashflows.headD 0) yearly0
  { name := s.name
    totalKwp := totalKwp
    totalCapex := totalCapex
    pvEnergy := pvEnergy
    pvOpex := pvOpex
    pvRevenue := pvRevenue
    totalRevenue := totalRevenue
    totalOpexNominal := totalOpexNominal
    cashflows := cashflows
    yearlyData := yearly
    metrics := calculateFinancials g ef pvEnergy totalCapex pvOpex pvRevenue
      totalRevenue totalOpexNominal cashflows (yearly.head?.map (·.energy))
    projects := List.zipWith (fun r p => r.map (fun x => (x, p)))
      projResults s.projects }

/-- `calculateSupplier(supplier, global)` from the source; `none` is the
source's `null`. -/
def calculateSupplier (s : Supplier) (g : Global) (ef : EnvFactors) :
    Option SupplierResult :=
  if !s.enabled then none
  else
    let projResults := s.projects.map (fun p => calculateProject p g ef)
    let active := projResults.reduceOption
    if active.length = 0 then none
    else some (supplierBody s g ef projResults active)

/-! ### Specification-side (claim-transcribed) definitions

The following definitions transcribe the claims' wording; they are compared
with the source-derived definitions above by the theorems below. -/

/-- Cumulative cash flow through year `k`: `cashflows[0] + … + cashflows[k]`
(claim side). -/
def cumulThrough (cashflows : List ℚ) (k : ℕ) : ℚ :=
  (cashflows.take (k + 1)).sum

/-- Payback transcribed from the claim: the first year (walking from year 1)
whose cumulative is non-negative gives the whole year index when that year's
own flow is `≤ 0` and `(year-1) + |previous cumulative| / flow` otherwise;
`period + 1` when no such year exists. -/
def paybackClaim (cashflows : List ℚ) (period : ℕ) : ℚ :=
  match (List.range' 1 (cashflows.length - 1)).find?
      (fun y => decide (0 ≤ cumulThrough cashflows y)) with
  | none => (period : ℚ) + 1
  | some y =>
    if cashflows.getD y 0 ≤ 0 then (y : ℚ)
    else ((y : ℚ) - 1) + |cumulThrough cashflows (y - 1)| / cashflows.getD y 0

/-- NPV of the full series at rate `guess` (claim side). -/
def npvAt (cashflows : List ℚ) (guess : ℚ) : ℚ :=
  ∑ t ∈ Finset.range cashflows.length, cashflows.getD t 0 / (1 + guess) ^ t

/-- The NPV derivative the source accumulates (claim side). -/
def dnpvAt (cashflows : List ℚ) (guess : ℚ) : ℚ :=
  -∑ t ∈ Finset.range cashflows.length,
    (t : ℚ) * cashflows.getD t 0 / ((1 + guess) ^ t * (1 + guess))

/-- Newton-Raphson iteration transcribed from the claim: stop with `0` on a
stalled derivative (`|dnpv| < 1e-6`) or an exhausted budget, and with
`100 * next` as soon as successive guesses differ by less than `1e-5`. -/
def irrNewton (cashflows : List ℚ) : ℕ → ℚ → ℚ
  | 0, _ => 0
  | fuel + 1, guess =>
    if |dnpvAt cashflows guess| < 1 / 1000000 then 0
    else
      let next := guess - npvAt cashflows guess / dnpvAt cashflows guess
      if |next - guess| < 1 / 100000 then next * 100
      else irrNewton cashflows fuel next

/-- IRR transcribed from the claim: Newton-Raphson from guess `0.1`, at most
100 iterations. -/
def irrClaim (cashflows : List ℚ) : ℚ :=
  irrNewton cashflows 100 (1 / 10)

/-- Future value at year `n` of the non-negative flows, compounded at `r`
(claim side). -/
def mirrFvSum (cashflows : List ℚ) (r : ℚ) (n : ℕ) : ℚ :=
  ∑ t ∈ Finset.range cashflows.length,
    if 0 ≤ cashflows.getD t 0
    then cashflows.getD t 0 * (1 + r) ^ ((n : ℤ) - (t : ℤ)) else 0

/-- Present value at year 0 of the magnitudes of the negative flows,
discounted at `r` (claim side). -/
def mirrPvSum (cashflows : List ℚ) (r : ℚ) : ℚ :=
  ∑ t ∈ Finset.range cashflows.length,
    if cashflows.getD t 0 < 0 then |cashflows.getD t 0| / (1 + r) ^ t else 0

/-- The enabled projects' results, in positional order (claim side: the
aggregation claims sum over "the enabled projects"). -/
def enabledResults (s : Supplier) (g : Global) (ef : EnvFactors) :
    List ProjectResult :=
  (s.projects.filter (fun p => p.enabled)).map (fun p => projectBody p g ef)

/-! ### Concrete inputs used by the witness and counterexample theorems -/

/-- Witness global assumptions: a 2-year horizon with all rates zero. -/
def gW : Global :=
  { period := 2, wacc := 0, degradation := 0, tariffEscalation := 0,
    opexInflation := 0 }

/-- Witness project: 1 kWp, 1 daily production hour, capex 100, tariff 1,
one flat opex item of 5. -/
def pW : Project :=
  { kwp := 1, prodHour := 1, capex := 100, utilityTariff := some 1,
    ppaDiscount := 0, enabled := true,
    opex := [{ type := .flat, unit := 5, freq := none }] }

/-- Witness environmental factors. -/
def efW : EnvFactors := { CO2_FACTOR := 1, TREE_FACTOR := 2 }

/-- Witness project result (the project is enabled, so `calculateProject`
returns exactly this). -/
def resW : ProjectResult := projectBody pW gW efW

/-- Witness supplier: one enabled project and one disabled copy. -/
def sW : Supplier :=
  { name := "A", enabled := true,
    projects := [pW, { pW with enabled := false }] }

/-- Witness supplier result. -/
def sresW : SupplierResult :=
  (calculateSupplier sW gW efW).getD (supplierBody sW gW efW [] [])

/-- Witness project with zero capacity (for the degenerate LCOE case). -/
def pZ : Project := { pW with kwp := 0 }

/-- Result for the zero-capacity witness project. -/
def resZ : ProjectResult := projectBody pZ gW efW

/-- Counterexample global assumptions: 100 % degradation, so every year
after the first produces zero energy. -/
def gX : Global :=
  { period := 2, wacc := 0, degradation := 100, tariffEscalation := 0,
    opexInflation := 0 }

/-- Counterexample supplier holding exactly the one enabled project `pW`. -/
def sX : Supplier := { name := "A", enabled := true, projects := [pW] }

/-! ## Theorems -/

theorem calculateProject_none_iff (p : Project) (g : Global) (ef : EnvFactors) :
    calculateProject p g ef = none ↔ p.enabled = false := by
  cases hp : p.enabled <;> simp [calculateProject, hp]

theorem calculateProject_enabled (p : Project) (g : Global) (ef : EnvFactors)
    (hp : p.enabled = true) : calculateProject p g ef = some (projectBody p g ef) := by
  simp [calculateProject, hp]

theorem reduceOption_map_calculateProject (g : Global) (ef : EnvFactors) :
    ∀ l : List Project,
      (l.map (fun p => calculateProject p g ef)).reduceOption =
        (l.filter (fun p => p.enabled)).map (fun p => projectBody p g ef)
  | [] => by simp
  | p :: l => by
    rw [List.map_cons, List.filter_cons]
    cases hp : p.enabled
    · have hnone : calculateProject p g ef = none := by
        simp [calculateProject, hp]
      rw [hnone, List.reduceOption_cons_of_none,
        reduceOption_map_calculateProject g ef l]
      simp
    · rw [calculateProject_enabled p g ef hp, List.reduceOption_cons_of_some,
        reduceOption_map_calculateProject g ef l]
      simp

/-- C9: `calculateProject` returns `null` exactly for a disabled project,
and `calculateSupplier` returns `null` exactly when the supplier is
disabled or every per-project result is `null`. -/
theorem C9_null_results :
    (∀ (p : Project) (g : Global) (ef : EnvFactors),
      calculateProject p g ef = none ↔ p.enabled = false) ∧
    (∀ (s : Supplier) (g : Global) (ef : EnvFactors),
      calculateSupplier s g ef = none ↔
        (s.enabled = false ∨ ∀ p ∈ s.projects, calculateProject p g ef = none)) := by
  refine ⟨calculateProject_none_iff, fun s g ef => ?_⟩
  cases hs : s.enabled with
  | false => simp [calculateSupplier, hs]
  | true =>
    simp only [calculateSupplier, hs, Bool.not_true, Bool.false_eq_true, if_false]
    rw [reduceOption_map_calculateProject]
    constructor
    · intro h
      refine Or.inr (fun p hp => ?_)
      rw [calculateProject_none_iff]
      by_contra hne
      have hen : p.enabled = true := by
        cases hpe : p.enabled
        · exact absurd hpe hne
        · rfl
      split at h
      · next hlen =>
        have : p ∈ s.projects.filter (fun p => p.enabled) :=
          List.mem_filter.mpr ⟨hp, hen⟩
        rw [List.length_eq_zero] at hlen
        rw [List.map_eq_nil_iff] at hlen
        simp [hlen] at this
      · next => simp at h
    · intro h
      rcases h with h | h
      · simp [hs] at h
      · have hfil : s.projects.filter (fun p => p.enabled) = [] := by
          rw [List.filter_eq_nil_iff]
          intro p hp
          have := (calculateProject_none_iff p g ef).mp (h p hp)
          simp [this]
        simp [hfil]

theorem calculateProject_some (p : Project) (g : Global) (ef : EnvFactors)
    (res : ProjectResult) (hres : calculateProject p g ef = some res) :
    res = projectBody p g ef := by
  simp only [calculateProject] at hres
  split at hres
  · exact absurd hres (by simp)
  · exact (Option.some.inj hres).symm

theorem projectBody_pvEnergy_of_kwp_zero (p : Project) (g : Global)
    (ef : EnvFactors) (hk : p.kwp = 0) : (projectBody p g ef).pvEnergy = 0 := by
  simp only [projectBody]
  refine List.sum_eq_zero (fun x hx => ?_)
  rcases List.mem_map.mp hx with ⟨t, _, rfl⟩
  simp [energyOf, hk]

/-- C5: `calculateFinancials` returns the quotient decomposition when
`pvEnergy > 0` and all five LCOE-related fields equal `0` otherwise; in
particular a `kwp = 0` project gets all-zero LCOE fields. -/
theorem C5_lcoe_decomposition :
    (∀ (g : Global) (ef : EnvFactors)
        (pvEnergy totalCapex pvOpex pvRevenue totalRevenue totalOpexNominal : ℚ)
        (cashflows : List ℚ) (y1energy : Option ℚ),
      (calculateFinancials g ef pvEnergy totalCapex pvOpex pvRevenue
          totalRevenue totalOpexNominal cashflows y1energy).lcoeCapex =
        (if 0 < pvEnergy then totalCapex / pvEnergy else 0) ∧
      (calculateFinancials g ef pvEnergy totalCapex pvOpex pvRevenue
          totalRevenue totalOpexNominal cashflows y1energy).lcoeOpex =
        (if 0 < pvEnergy then pvOpex / pvEnergy else 0) ∧
      (calculateFinancials g ef pvEnergy totalCapex pvOpex pvRevenue
          totalRevenue totalOpexNominal cashflows y1energy).lcoe =
        (if 0 < pvEnergy then totalCapex / pvEnergy + pvOpex / pvEnergy else 0) ∧
      (calculateFinancials g ef pvEnergy totalCapex pvOpex pvRevenue
          totalRevenue totalOpexNominal cashflows y1energy).avgTariff =
        (if 0 < pvEnergy then pvRevenue / pvEnergy else 0) ∧
      (calculateFinancials g ef pvEnergy totalCapex pvOpex pvRevenue
          totalRevenue totalOpexNominal cashflows y1energy).profitMargin =
        (if 0 < pvEnergy
          then pvRevenue / pvEnergy - (totalCapex / pvEnergy + pvOpex / pvEnergy)
          else 0)) ∧
    (∀ (p : Project) (g : Global) (ef : EnvFactors) (res : ProjectResult),
      calculateProject p g ef = some res → p.kwp = 0 →
      res.metrics.lcoeCapex = 0 ∧ res.metrics.lcoeOpex = 0 ∧
      res.metrics.lcoe = 0 ∧ res.metrics.avgTariff = 0 ∧
      res.metrics.profitMargin = 0) := by
  constructor
  · intro g ef pvE tc pvO pvR totR totO cfs y1
    refine ⟨rfl, rfl, ?_, rfl, ?_⟩ <;>
      · simp only [calculateFinancials]
        split_ifs with h <;> simp [h]
  · intro p g ef res hres hk
    rw [calculateProject_some p g ef res hres]
    have hpv : (projectBody p g ef).pvEnergy = 0 :=
      projectBody_pvEnergy_of_kwp_zero p g ef hk
    have hmet : (projectBody p g ef).metrics =
        calculateFinancials g ef (projectBody p g ef).pvEnergy p.capex
          (projectBody p g ef).pvOpex (projectBody p g ef).pvRevenue
          (projectBody p g ef).totalRevenue (projectBody p g ef).totalOpexNominal
          (projectBody p g ef).cashflows
          ((projectBody p g ef).yearlyData.head?.map (·.energy)) := rfl
    rw [hmet, hpv]
    simp [calculateFinancials]

theorem irrFold_eq (g : ℚ) :
    ∀ (l : List ℚ) (n : ℕ) (a b : ℚ),
      (List.enumFrom n l).foldl
        (fun acc tc =>
          let f := (1 + g) ^ tc.1
          (acc.1 + tc.2 / f, acc.2 - (tc.1 : ℚ) * tc.2 / (f * (1 + g)))) (a, b)
      = (a + ∑ i ∈ Finset.range l.length, l.getD i 0 / (1 + g) ^ (n + i),
         b - ∑ i ∈ Finset.range l.length,
           ((n + i : ℕ) : ℚ) * l.getD i 0 / ((1 + g) ^ (n + i) * (1 + g)))
  | [], n, a, b => by simp
  | x :: xs, n, a, b => by
    simp only [List.enumFrom_cons, List.foldl_cons]
    rw [irrFold_eq g xs (n + 1) (a + x / (1 + g) ^ n)
      (b - (n : ℚ) * x / ((1 + g) ^ n * (1 + g)))]
    refine Prod.ext ?_ ?_
    · show a + x / (1 + g) ^ n + _ = a + _
      rw [List.length_cons, Finset.sum_range_succ']
      simp only [List.getD_cons_succ, List.getD_cons_zero, Nat.add_zero]
      rw [Finset.sum_congr rfl (fun i _ => by rw [show n + 1 + i = n + (i + 1) by omega])]
      ring
    · show b - (n : ℚ) * x / ((1 + g) ^ n * (1 + g)) - _ = b - _
      rw [List.length_cons, Finset.sum_range_succ']
      simp only [List.getD_cons_succ, List.getD_cons_zero, Nat.add_zero]
      rw [Finset.sum_congr rfl (fun i _ => by rw [show n + 1 + i = n + (i + 1) by omega])]
      ring

theorem irrNpvDnpv_eq (cashflows : List ℚ) (g : ℚ) :
    irrNpvDnpv cashflows g = (npvAt cashflows g, dnpvAt cashflows g) := by
  unfold irrNpvDnpv npvAt dnpvAt
  rw [show cashflows.enum = List.enumFrom 0 cashflows from rfl,
    irrFold_eq g cashflows 0 0 0]
  simp

theorem irrGo_eq_irrNewton (cashflows : List ℚ) :
    ∀ (fuel : ℕ) (guess : ℚ),
      irrGo cashflows fuel guess = irrNewton cashflows fuel guess
  | 0, _ => rfl
  | fuel + 1, guess => by
    simp only [irrGo, irrNewton, irrNpvDnpv_eq]
    split_ifs <;> first | rfl | exact irrGo_eq_irrNewton cashflows fuel _

/-- C4: `calculateIRR` is the claim's Newton-Raphson iteration on the NPV
of the full series (guess `0.1`, 100 iterations, `1e-5` convergence,
`0` on a `1e-6` derivative stall or an exhausted budget), and on
`[-100, 110]` it returns a value within `0.01` of `10`. -/
theorem C4_irr :
    (∀ cashflows : List ℚ, calculateIRR cashflows = irrClaim cashflows) ∧
    |calculateIRR [-100, 110] - 10| < 1 / 100 := by
  constructor
  · intro cashflows
    exact irrGo_eq_irrNewton cashflows 100 (1 / 10)
  · have hnd : irrNpvDnpv [-100, 110] (1 / 10) = (0, -1000 / 11) := by
      unfold irrNpvDnpv
      simp [List.enum, List.enumFrom]
      norm_num
    have h10 : calculateIRR [-100, 110] = 10 := by
      unfold calculateIRR
      rw [show (100 : ℕ) = 99 + 1 from rfl, irrGo, hnd]
      norm_num [abs_of_nonneg]
    rw [h10]
    norm_num

theorem mirrFold_eq (r : ℚ) (n : ℕ) :
    ∀ (l : List ℚ) (m : ℕ) (a b : ℚ),
      (List.enumFrom m l).foldl
        (fun acc tc =>
          if 0 ≤ tc.2 then (acc.1 + tc.2 * (1 + r) ^ ((n : ℤ) - (tc.1 : ℤ)), acc.2)
          else (acc.1, acc.2 + |tc.2| / (1 + r) ^ tc.1)) (a, b)
      = (a + ∑ i ∈ Finset.range l.length,
           (if 0 ≤ l.getD i 0
            then l.getD i 0 * (1 + r) ^ ((n : ℤ) - ((m + i : ℕ) : ℤ)) else 0),
         b + ∑ i ∈ Finset.range l.length,
           (if l.getD i 0 < 0 then |l.getD i 0| / (1 + r) ^ (m + i) else 0))
  | [], m, a, b => by simp
  | x :: xs, m, a, b => by
    simp only [List.enumFrom_cons, List.foldl_cons]
    by_cases hx : 0 ≤ x
    · rw [if_pos hx,
        mirrFold_eq r n xs (m + 1) (a + x * (1 + r) ^ ((n : ℤ) - (m : ℤ))) b]
      refine Prod.ext ?_ ?_
      · show a + x * (1 + r) ^ ((n : ℤ) - (m : ℤ)) + _ = a + _
        rw [List.length_cons, Finset.sum_range_succ']
        simp only [List.getD_cons_succ, List.getD_cons_zero, Nat.add_zero,
          if_pos hx]
        rw [Finset.sum_congr rfl
          (fun i _ => by rw [show m + 1 + i = m + (i + 1) by omega])]
        ring
      · show b + _ = b + _
        rw [List.length_cons, Finset.sum_range_succ']
        simp only [List.getD_cons_succ, List.getD_cons_zero, Nat.add_zero,
          if_neg (not_lt.mpr hx)]
        rw [Finset.sum_congr rfl
          (fun i _ => by rw [show m + 1 + i = m + (i + 1) by omega])]
        ring
    · rw [if_neg hx,
        mirrFold_eq r n xs (m + 1) a (b + |x| / (1 + r) ^ m)]
      refine Prod.ext ?_ ?_
      · show a + _ = a + _
        rw [List.length_cons, Finset.sum_range_succ']
        simp only [List.getD_cons_succ, List.getD_cons_zero, Nat.add_zero,
          if_neg hx]
        rw [Finset.sum_congr rfl
          (fun i _ => by rw [show m + 1 + i = m + (i + 1) by omega])]
        ring
      · show b + |x| / (1 + r) ^ m + _ = b + _
        rw [List.length_cons, Finset.sum_range_succ']
        simp only [List.getD_cons_succ, List.getD_cons_zero, Nat.add_zero,
          if_pos (not_le.mp hx)]
        rw [Finset.sum_congr rfl
          (fun i _ => by rw [show m + 1 + i = m + (i + 1) by omega])]
        ring

theorem mirrSums_eq (cashflows : List ℚ) (r : ℚ) (n : ℕ) :
    mirrSums cashflows r n = (mirrFvSum cashflows r n, mirrPvSum cashflows r) := by
  unfold mirrSums mirrFvSum mirrPvSum
  rw [show cashflows.enum = List.enumFrom 0 cashflows from rfl,
    mirrFold_eq r n cashflows 0 0 0]
  simp

/-- C7: `calculateMIRR` compounds each non-negative flow forward to year
`period` and discounts each negative flow's magnitude back to year 0 at
`wacc`, returning `((ΣFV/ΣPV)^(1/period) - 1) * 100` when the negative-PV
sum is nonzero and `0` when it is zero. -/
theorem C7_mirr :
    ∀ (cashflows : List ℚ) (g : Global),
      calculateMIRR cashflows g =
        if mirrPvSum cashflows (g.wacc / 100) = 0 then 0
        else ((((mirrFvSum cashflows (g.wacc / 100) g.period : ℚ) : ℝ) /
            ((mirrPvSum cashflows (g.wacc / 100) : ℚ) : ℝ)) ^
            ((1 : ℝ) / (g.period : ℝ)) - 1) * 100 := by
  intro cashflows g
  simp only [calculateMIRR, mirrSums_eq]

/-- C8: `calculateROI` is the given quotient guarded by `totalCapex = 0`,
and each zero-denominator case of LCOE (`pvEnergy = 0`) and MIRR
(zero negative-PV sum) yields `0` instead of an error. -/
theorem C8_roi_and_zero_denominators :
    (∀ totalRevenue totalOpex totalCapex : ℚ,
      calculateROI totalRevenue totalOpex totalCapex =
        if totalCapex = 0 then 0
        else (totalRevenue - totalOpex - totalCapex) / totalCapex * 100) ∧
    (∀ (g : Global) (ef : EnvFactors)
        (totalCapex pvOpex pvRevenue totalRevenue totalOpexNominal : ℚ)
        (cashflows : List ℚ) (y1energy : Option ℚ),
      (calculateFinancials g ef 0 totalCapex pvOpex pvRevenue totalRevenue
          totalOpexNominal cashflows y1energy).lcoeCapex = 0 ∧
      (calculateFinancials g ef 0 totalCapex pvOpex pvRevenue totalRevenue
          totalOpexNominal cashflows y1energy).lcoeOpex = 0 ∧
      (calculateFinancials g ef 0 totalCapex pvOpex pvRevenue totalRevenue
          totalOpexNominal cashflows y1energy).lcoe = 0 ∧
      (calculateFinancials g ef 0 totalCapex pvOpex pvRevenue totalRevenue
          totalOpexNominal cashflows y1energy).avgTariff = 0 ∧
      (calculateFinancials g ef 0 totalCapex pvOpex pvRevenue totalRevenue
          totalOpexNominal cashflows y1energy).profitMargin = 0) ∧
    (∀ (cashflows : List ℚ) (g : Global),
      mirrPvSum cashflows (g.wacc / 100) = 0 → calculateMIRR cashflows g = 0) := by
  refine ⟨fun totalRevenue totalOpex totalCapex => rfl,
    fun g ef tc pvO pvR totR totO cfs y1 => ?_, fun cashflows g h => ?_⟩
  · simp [calculateFinancials]
  · simp only [calculateMIRR, mirrSums_eq]
    rw [if_pos h]

theorem paybackGo_spec (period : ℕ) :
    ∀ (rest : List ℚ) (year : ℕ) (cum : ℚ),
      paybackGo period rest year cum =
        match (List.range rest.length).find?
            (fun i => decide (0 ≤ cum + (rest.take (i + 1)).sum)) with
        | none => (period : ℚ) + 1
        | some i =>
          if rest.getD i 0 ≤ 0 then ((year + i : ℕ) : ℚ)
          else ((year + i : ℕ) : ℚ) - 1 +
            |cum + (rest.take i).sum| / rest.getD i 0
  | [], year, cum => by simp [paybackGo]
  | a :: rest, year, cum => by
    rw [List.length_cons, List.range_succ_eq_map, List.find?_cons]
    by_cases h0 : 0 ≤ cum + a
    · have hp : decide (0 ≤ cum + ((a :: rest).take (0 + 1)).sum) = true := by
        simp [h0]
      rw [hp]
      simp only [paybackGo, if_pos h0]
      simp [h0]
    · have hp : decide (0 ≤ cum + ((a :: rest).take (0 + 1)).sum) = false := by
        simp [h0]
      rw [hp]
      simp only [paybackGo, if_neg h0]
      rw [paybackGo_spec period rest (year + 1) (cum + a)]
      rw [List.find?_map]
      have hpred : ((fun i => decide (0 ≤ cum + ((a :: rest).take (i + 1)).sum)) ∘
            Nat.succ) =
          (fun i => decide (0 ≤ cum + a + (rest.take (i + 1)).sum)) := by
        funext i
        simp [Function.comp, List.take_succ_cons, add_assoc]
      rw [hpred]
      cases hq : (List.range rest.length).find?
          (fun i => decide (0 ≤ cum + a + (rest.take (i + 1)).sum)) with
      | none => simp
      | some i =>
        simp only [Option.map_some]
        simp [List.getD_cons_succ, List.take_succ_cons, add_assoc,
          Nat.succ_eq_add_one, show year + 1 + i = year + (i + 1) by omega]

theorem calculatePayback_eq_claim (cashflows : List ℚ) (period : ℕ)
    (h : 2 ≤ cashflows.length) :
    calculatePayback cashflows period = paybackClaim cashflows period := by
  match cashflows with
  | [] => simp at h
  | c0 :: rest =>
    have hlen : ¬(c0 :: rest).length < 2 := by omega
    simp only [calculatePayback, paybackClaim, if_neg hlen]
    rw [paybackGo_spec period rest 1 c0]
    rw [List.length_cons, Nat.add_sub_cancel, List.range'_eq_map_range,
      List.find?_map]
    have hpred : ((fun y => decide (0 ≤ cumulThrough (c0 :: rest) y)) ∘
          (fun x => 1 + x)) =
        (fun i => decide (0 ≤ c0 + (rest.take (i + 1)).sum)) := by
      funext i
      simp [Function.comp, cumulThrough, show 1 + i + 1 = i + 1 + 1 by omega,
        List.take_succ_cons]
    rw [hpred]
    cases hq : (List.range rest.length).find?
        (fun i => decide (0 ≤ c0 + (rest.take (i + 1)).sum)) with
    | none => simp
    | some i =>
      simp only [Option.map_some]
      have h1 : (c0 :: rest).getD (1 + i) 0 = rest.getD i 0 := by
        rw [show 1 + i = i + 1 by omega, List.getD_cons_succ]
      have h2 : cumulThrough (c0 :: rest) (1 + i - 1) = c0 + (rest.take i).sum := by
        simp [cumulThrough, show 1 + i - 1 + 1 = i + 1 by omega,
          List.take_succ_cons]
      simp [h1, h2, Nat.add_comm 1 i, cumulThrough, List.take_succ_cons]

/-- C3: `calculatePayback` is the claim's walk (first year with non-negative
running cumulative; whole-year index for a non-positive flow, linear
interpolation otherwise; `period + 1` when never recovered), and the payback
of `[-100, 50, 50, 50]` with period 3 is exactly `2`. -/
theorem C3_payback :
    (∀ (cashflows : List ℚ) (period : ℕ), 2 ≤ cashflows.length →
      calculatePayback cashflows period = paybackClaim cashflows period) ∧
    calculatePayback [-100, 50, 50, 50] 3 = 2 := by
  constructor
  · exact calculatePayback_eq_claim
  · have habs : |(-50 : ℚ)| = 50 := by
      rw [abs_of_nonpos] <;> norm_num
    norm_num [calculatePayback, paybackGo, habs]

theorem foldl_add_mul (f : OpexItem → ℚ) (c : ℚ) :
    ∀ (l : List OpexItem) (a : ℚ),
      l.foldl (fun acc item => acc + f item * c) a = a + (l.map f).sum * c
  | [], a => by simp
  | x :: l, a => by
    rw [List.foldl_cons, foldl_add_mul f c l (a + f x * c)]
    rw [List.map_cons, List.sum_cons]
    ring

theorem opexOf_eq (p : Project) (g : Global) (t : ℕ) :
    opexOf p g t =
      (p.opex.map (opexVal p (energyOf p g t))).sum *
        (1 + g.opexInflation / 100) ^ (t - 1) := by
  unfold opexOf
  rw [foldl_add_mul (opexVal p (energyOf p g t))
    ((1 + g.opexInflation / 100) ^ (t - 1)) p.opex 0]
  rw [zero_add]

theorem addCumulative_length :
    ∀ (l : List YearRecord) (c : ℚ), (addCumulative c l).length = l.length
  | [], _ => rfl
  | d :: l, c => by
    simp [addCumulative, addCumulative_length l]

theorem addCumulative_getElem? :
    ∀ (l : List YearRecord) (c : ℚ) (i : ℕ),
      (addCumulative c l)[i]? = (l[i]?).map
        (fun d =>
          { d with cumulativeCF := c + ((l.take (i + 1)).map (·.netCF)).sum })
  | [], c, i => by simp [addCumulative]
  | d :: l, c, 0 => by
    simp [addCumulative, List.take_succ_cons]
  | d :: l, c, i + 1 => by
    simp only [addCumulative, List.getElem?_cons_succ]
    rw [addCumulative_getElem? l (c + d.netCF) i]
    cases h : l[i]? with
    | none => simp
    | some e => simp [List.take_succ_cons, add_assoc]

theorem projectBody_cashflows_length (p : Project) (g : Global)
    (ef : EnvFactors) : (projectBody p g ef).cashflows.length = g.period + 1 := by
  simp [projectBody]

theorem projectBody_yearlyData_length (p : Project) (g : Global)
    (ef : EnvFactors) : (projectBody p g ef).yearlyData.length = g.period := by
  simp [projectBody, addCumulative_length]

/-- C1: for an enabled project, each year-`t` record of `calculateProject`
carries the claimed energy, tariff, revenue, opex and net-cash-flow
formulas, and the cash-flow series has length `period + 1` with
`cashflows[0] = -capex` and `cashflows[t] = netCF(t)`. -/
theorem C1_project_year_formulas (p : Project) (g : Global) (ef : EnvFactors)
    (res : ProjectResult) (hres : calculateProject p g ef = some res)
    (hper : 1 ≤ g.period) :
    res.cashflows.length = g.period + 1 ∧
    res.cashflows[0]? = some (-p.capex) ∧
    ∀ t : ℕ, 1 ≤ t → t ≤ g.period →
      ∃ yd : YearRecord, res.yearlyData[t - 1]? = some yd ∧
        yd.energy =
          p.kwp * p.prodHour * 365 * (1 - g.degradation / 100) ^ (t - 1) ∧
        yd.tariff =
          (match p.utilityTariff with
            | some x => x
            | none => (9 : ℚ) / 2) * (1 - p.ppaDiscount / 100) *
            (1 + g.tariffEscalation / 100) ^ (t - 1) ∧
        yd.revenue = yd.energy * yd.tariff ∧
        yd.opex =
          (p.opex.map (fun item =>
            match item.type with
            | .per_kwp => item.unit * p.kwp * freqOrOne item.freq
            | .flat => item.unit
            | .per_kwh => item.unit * yd.energy)).sum *
            (1 + g.opexInflation / 100) ^ (t - 1) ∧
        yd.netCF = yd.revenue - yd.opex ∧
        res.cashflows[t]? = some yd.netCF := by
  rw [calculateProject_some p g ef res hres]
  refine ⟨projectBody_cashflows_length p g ef, by simp [projectBody], ?_⟩
  intro t ht1 ht2
  have hti : 1 + (t - 1) = t := by omega
  have hlt : t - 1 < g.period := by omega
  have hyd0 : ((List.range' 1 g.period).map (projectYear p g))[t - 1]? =
      some (projectYear p g t) := by
    rw [List.getElem?_map, List.getElem?_range' 1 1 hlt]
    simp [hti]
  have hyd : (projectBody p g ef).yearlyData[t - 1]? =
      some ({ projectYear p g t with
        cumulativeCF := -p.capex +
          ((((List.range' 1 g.period).map (projectYear p g)).take
            (t - 1 + 1)).map (·.netCF)).sum }) := by
    show (addCumulative (-p.capex)
      ((List.range' 1 g.period).map (projectYear p g)))[t - 1]? = _
    rw [addCumulative_getElem?, hyd0]
    simp
  refine ⟨_, hyd, rfl, rfl, rfl, ?_, rfl, ?_⟩
  · show opexOf p g t = _
    rw [opexOf_eq]
    rfl
  · show ((-p.capex) :: (List.range' 1 g.period).map (netCFOf p g))[t]? =
      some (netCFOf p g t)
    rw [show t = (t - 1) + 1 by omega, List.getElem?_cons_succ,
      List.getElem?_map, List.getElem?_range' 1 1 (by omega : t - 1 < g.period)]
    simp only [Option.map_some, one_mul]
    rw [hti]
    simp [show t - 1 + 1 = t by omega]

theorem addInto_getElem? :
    ∀ (acc xs : List ℚ) (i : ℕ),
      (addInto acc xs)[i]? = (acc[i]?).map (· + xs.getD i 0)
  | acc, [], i => by
    cases h : acc[i]? <;> simp [addInto, h, List.getD]
  | [], x :: xs, i => by simp [addInto]
  | a :: acc, x :: xs, 0 => by simp [addInto]
  | a :: acc, x :: xs, i + 1 => by
    simp [addInto, addInto_getElem? acc xs i]

theorem addInto_length :
    ∀ (acc xs : List ℚ), (addInto acc xs).length = acc.length
  | _, [] => by cases ‹List ℚ› <;> rfl
  | [], _ :: _ => rfl
  | a :: acc, x :: xs => by simp [addInto, addInto_length acc xs]

theorem foldl_addInto_getElem? :
    ∀ (L : List ProjectResult) (acc : List ℚ) (i : ℕ),
      (L.foldl (fun acc r => addInto acc r.cashflows) acc)[i]? =
        (acc[i]?).map (· + (L.map (fun r => r.cashflows.getD i 0)).sum)
  | [], acc, i => by cases h : acc[i]? <;> simp [h]
  | r :: L, acc, i => by
    rw [List.foldl_cons,
      foldl_addInto_getElem? L (addInto acc r.cashflows) i, addInto_getElem?]
    cases h : acc[i]? <;> simp [h, add_assoc]

theorem foldl_addInto_length :
    ∀ (L : List ProjectResult) (acc : List ℚ),
      (L.foldl (fun acc r => addInto acc r.cashflows) acc).length = acc.length
  | [], acc => rfl
  | r :: L, acc => by
    rw [List.foldl_cons, foldl_addInto_length L (addInto acc r.cashflows),
      addInto_length]

theorem addYears_getElem? :
    ∀ (acc : List AggYearRecord) (ys : List YearRecord) (i : ℕ),
      (addYears acc ys)[i]? = (acc[i]?).map
        (fun a =>
          { a with
            energy := a.energy + (ys.map YearRecord.energy).getD i 0
            revenue := a.revenue + (ys.map YearRecord.revenue).getD i 0
            opex := a.opex + (ys.map YearRecord.opex).getD i 0
            netCF := a.netCF + (ys.map YearRecord.netCF).getD i 0 })
  | acc, [], i => by
    cases h : acc[i]? <;> simp [addYears, h, List.getD]
  | [], y :: ys, i => by simp [addYears]
  | a :: acc, y :: ys, 0 => by simp [addYears]
  | a :: acc, y :: ys, i + 1 => by
    simp [addYears, addYears_getElem? acc ys i]

theorem foldl_addYears_getElem? :
    ∀ (L : List ProjectResult) (acc : List AggYearRecord) (i : ℕ),
      (L.foldl (fun acc r => addYears acc r.yearlyData) acc)[i]? =
        (acc[i]?).map
          (fun a =>
            { a with
              energy := a.energy +
                (L.map (fun r => (r.yearlyData.map YearRecord.energy).getD i 0)).sum
              revenue := a.revenue +
                (L.map (fun r => (r.yearlyData.map YearRecord.revenue).getD i 0)).sum
              opex := a.opex +
                (L.map (fun r => (r.yearlyData.map YearRecord.opex).getD i 0)).sum
              netCF := a.netCF +
                (L.map (fun r => (r.yearlyData.map YearRecord.netCF).getD i 0)).sum })
  | [], acc, i => by cases h : acc[i]? <;> simp [h]
  | r :: L, acc, i => by
    rw [List.foldl_cons,
      foldl_addYears_getElem? L (addYears acc r.yearlyData) i, addYears_getElem?]
    cases h : acc[i]? with
    | none => simp
    | some a =>
      obtain ⟨ay, ae, arv, aox, anc, acu, atf⟩ := a
      simp [h, add_assoc]

theorem aggFinish_getElem? :
    ∀ (l : List AggYearRecord) (cfs : List ℚ) (cum : ℚ) (i : ℕ),
      (aggFinish cfs cum l)[i]? = (l[i]?).map
        (fun d =>
          { d with
            cumulativeCF := cum + (cfs.take (i + 1)).sum
            tariff := if 0 < d.energy then d.revenue / d.energy else 0 })
  | [], cfs, cum, i => by simp [aggFinish]
  | d :: l, cfs, cum, 0 => by
    cases cfs <;> simp [aggFinish]
  | d :: l, cfs, cum, i + 1 => by
    simp only [aggFinish, List.getElem?_cons_succ]
    rw [aggFinish_getElem? l cfs.tail (cum + cfs.headD 0) i]
    cases h : l[i]? with
    | none => simp
    | some e =>
      cases cfs <;> simp [h, add_assoc, List.take_succ_cons]

theorem foldl_kwp :
    ∀ (l : List Project) (a : ℚ),
      l.foldl (fun acc p => if p.enabled then acc + p.kwp else acc) a =
        a + ((l.filter (fun p => p.enabled)).map (·.kwp)).sum
  | [], a => by simp
  | p :: l, a => by
    cases hp : p.enabled <;>
      simp [List.foldl_cons, hp, foldl_kwp l, List.filter_cons, add_assoc]

theorem calculateSupplier_some (s : Supplier) (g : Global) (ef : EnvFactors)
    (res : SupplierResult) (hres : calculateSupplier s g ef = some res) :
    s.enabled = true ∧
    res = supplierBody s g ef (s.projects.map (fun p => calculateProject p g ef))
      (enabledResults s g ef) := by
  simp only [calculateSupplier] at hres
  split at hres
  · exact absurd hres (by simp)
  · next hen =>
    have hen' : s.enabled = true := by
      cases h : s.enabled
      · rw [h] at hen
        simp at hen
      · rfl
    split at hres
    · exact absurd hres (by simp)
    · refine ⟨hen', ?_⟩
      have := Option.some.inj hres
      rw [← this, enabledResults, ← reduceOption_map_calculateProject]

theorem headD_add_take_tail_sum (l : List ℚ) (hl : l ≠ []) (k : ℕ) :
    l.headD 0 + (l.tail.take k).sum = (l.take (k + 1)).sum := by
  cases l with
  | nil => exact absurd rfl hl
  | cons c tl => simp [List.take_succ_cons]

/-- C2: an enabled supplier's result aggregates its enabled projects:
the cash-flow series has length `period + 1` and is the index-aligned sum
of the projects' series, each yearly field is the sum of the corresponding
project records, `cumulativeCF` is the running sum of the aggregated
series, the aggregate tariff is `revenue/energy` guarded by `energy > 0`,
and `totalKwp` sums the enabled projects' capacities. -/
theorem C2_supplier_aggregation (s : Supplier) (g : Global) (ef : EnvFactors)
    (res : SupplierResult) (hres : calculateSupplier s g ef = some res) :
    res.cashflows.length = g.period + 1 ∧
    (∀ t : ℕ, t ≤ g.period →
      res.cashflows[t]? =
        some (((enabledResults s g ef).map
          (fun r => r.cashflows.getD t 0)).sum)) ∧
    (∀ i : ℕ, i < g.period →
      ∃ d : AggYearRecord, res.yearlyData[i]? = some d ∧
        d.energy = ((enabledResults s g ef).map
          (fun r => (r.yearlyData.map YearRecord.energy).getD i 0)).sum ∧
        d.revenue = ((enabledResults s g ef).map
          (fun r => (r.yearlyData.map YearRecord.revenue).getD i 0)).sum ∧
        d.opex = ((enabledResults s g ef).map
          (fun r => (r.yearlyData.map YearRecord.opex).getD i 0)).sum ∧
        d.netCF = ((enabledResults s g ef).map
          (fun r => (r.yearlyData.map YearRecord.netCF).getD i 0)).sum ∧
        d.cumulativeCF = (res.cashflows.take (i + 2)).sum ∧
        d.tariff = (if 0 < d.energy then d.revenue / d.energy else 0)) ∧
    res.totalKwp = ((s.projects.filter (fun p => p.enabled)).map (·.kwp)).sum := by
  obtain ⟨hen, hbody⟩ := calculateSupplier_some s g ef res hres
  subst hbody
  have hcf : (supplierBody s g ef
      (s.projects.map (fun p => calculateProject p g ef))
      (enabledResults s g ef)).cashflows =
      (enabledResults s g ef).foldl (fun acc r => addInto acc r.cashflows)
        (List.replicate (g.period + 1) 0) := rfl
  have hlen : ((enabledResults s g ef).foldl
      (fun acc r => addInto acc r.cashflows)
      (List.replicate (g.period + 1) 0)).length = g.period + 1 := by
    rw [foldl_addInto_length, List.length_replicate]
  refine ⟨by rw [hcf, hlen], ?_, ?_, ?_⟩
  · intro t ht
    rw [hcf, foldl_addInto_getElem?, List.getElem?_replicate,
      if_pos (by omega : t < g.period + 1)]
    simp
  · intro i hi
    have hinit : (initAggYears g.period)[i]? =
        some (⟨i + 1, 0, 0, 0, 0, 0, 0⟩ : AggYearRecord) := by
      simp [initAggYears, List.getElem?_range hi]
    have hyd : (supplierBody s g ef
        (s.projects.map (fun p => calculateProject p g ef))
        (enabledResults s g ef)).yearlyData =
        aggFinish ((enabledResults s g ef).foldl
            (fun acc r => addInto acc r.cashflows)
            (List.replicate (g.period + 1) 0)).tail
          (((enabledResults s g ef).foldl
            (fun acc r => addInto acc r.cashflows)
            (List.replicate (g.period + 1) 0)).headD 0)
          ((enabledResults s g ef).foldl
            (fun acc r => addYears acc r.yearlyData) (initAggYears g.period)) :=
      rfl
    rw [hyd, aggFinish_getElem?, foldl_addYears_getElem?, hinit]
    simp only [Option.map_some']
    have hne : (List.foldl (fun acc r => addInto acc r.cashflows)
        (List.replicate (g.period + 1) 0) (enabledResults s g ef)) ≠ [] := by
      intro hnil
      rw [hnil] at hlen
      simp at hlen
    refine ⟨_, rfl, by first | rfl | simp, by first | rfl | simp,
      by first | rfl | simp, by first | rfl | simp, ?_, by rfl⟩
    show _ + _ = _
    rw [hcf, headD_add_take_tail_sum _ hne]
  · show (s.projects.foldl (fun acc p => if p.enabled then acc + p.kwp else acc) 0) = _
    rw [foldl_kwp, zero_add]

theorem addInto_replicate_zero :
    ∀ (xs : List ℚ) (n : ℕ), xs.length = n →
      addInto (List.replicate n 0) xs = xs
  | [], n, h => by
    subst h
    rfl
  | x :: xs, n, h => by
    subst h
    rw [List.length_cons, List.replicate_succ]
    show (0 + x) :: addInto (List.replicate xs.length 0) xs = x :: xs
    rw [zero_add, addInto_replicate_zero xs xs.length rfl]

theorem aggFinish_head_energy (cfs : List ℚ) (cum : ℚ) (l : List AggYearRecord) :
    ((aggFinish cfs cum l).head?.map (fun d => d.energy)) =
      (l.head?.map (fun d => d.energy)) := by
  rw [List.head?_eq_getElem?, List.head?_eq_getElem?, aggFinish_getElem?]
  cases h : l[0]? <;> simp

theorem addYears_init_head_energy (n : ℕ) (ys : List YearRecord)
    (hl : ys.length = n) :
    ((addYears (initAggYears n) ys).head?.map (fun d => d.energy)) =
      (ys.head?.map (fun y => y.energy)) := by
  rw [List.head?_eq_getElem?, List.head?_eq_getElem?, addYears_getElem?]
  cases n with
  | zero =>
    have : ys = [] := List.length_eq_zero.mp hl
    subst this
    simp [initAggYears]
  | succ m =>
    have h0 : (initAggYears (m + 1))[0]? =
        some (⟨1, 0, 0, 0, 0, 0, 0⟩ : AggYearRecord) := by
      simp [initAggYears, List.getElem?_range (Nat.succ_pos m)]
    rw [h0]
    cases ys with
    | nil => simp at hl
    | cons y ys => simp

/-- C6 (amended): a supplier with exactly one enabled project reproduces
that project's result in every shared field — totals, PV sums, the
cash-flow series, all derived metrics, and each yearly record's year,
energy, revenue, opex, netCF and cumulativeCF — while the yearly `tariff`
agrees in every year whose energy is positive (in a zero-energy year the
supplier reports `0` where the project keeps its escalated PPA price). -/
theorem C6_singleton_supplier (s : Supplier) (g : Global) (ef : EnvFactors)
    (p : Project) (sres : SupplierResult) (pres : ProjectResult)
    (hfil : s.projects.filter (fun q => q.enabled) = [p])
    (hsup : calculateSupplier s g ef = some sres)
    (hproj : calculateProject p g ef = some pres) :
    sres.totalCapex = pres.totalCapex ∧
    sres.pvEnergy = pres.pvEnergy ∧
    sres.pvOpex = pres.pvOpex ∧
    sres.pvRevenue = pres.pvRevenue ∧
    sres.totalRevenue = pres.totalRevenue ∧
    sres.totalOpexNominal = pres.totalOpexNominal ∧
    sres.cashflows = pres.cashflows ∧
    sres.metrics = pres.metrics ∧
    calculateIRR sres.cashflows = calculateIRR pres.cashflows ∧
    calculateMIRR sres.cashflows g = calculateMIRR pres.cashflows g ∧
    sres.yearlyData.length = pres.yearlyData.length ∧
    (∀ (i : ℕ) (sd : AggYearRecord) (pd : YearRecord),
      sres.yearlyData[i]? = some sd → pres.yearlyData[i]? = some pd →
      sd.year = pd.year ∧ sd.energy = pd.energy ∧ sd.revenue = pd.revenue ∧
      sd.opex = pd.opex ∧ sd.netCF = pd.netCF ∧
      sd.cumulativeCF = pd.cumulativeCF ∧
      (0 < pd.energy → sd.tariff = pd.tariff)) := by
  have hpres : pres = projectBody p g ef :=
    calculateProject_some p g ef pres hproj
  have hact : enabledResults s g ef = [pres] := by
    rw [enabledResults, hfil, List.map_cons, List.map_nil, hpres]
  obtain ⟨hsen, hsres⟩ := calculateSupplier_some s g ef sres hsup
  rw [hact] at hsres
  have hcl : pres.cashflows.length = g.period + 1 := by
    rw [hpres, projectBody_cashflows_length]
  have hyl : pres.yearlyData.length = g.period := by
    rw [hpres, projectBody_yearlyData_length]
  have hcfs : sres.cashflows = pres.cashflows := by
    rw [hsres]
    show List.foldl (fun acc r => addInto acc r.cashflows)
      (List.replicate (g.period + 1) 0) [pres] = pres.cashflows
    rw [List.foldl_cons, List.foldl_nil]
    exact addInto_replicate_zero pres.cashflows (g.period + 1) hcl
  have hydagg : sres.yearlyData =
      aggFinish (pres.cashflows.tail) (pres.cashflows.headD 0)
        (addYears (initAggYears g.period) pres.yearlyData) := by
    rw [hsres]
    show aggFinish
      ((List.foldl (fun acc r => addInto acc r.cashflows)
        (List.replicate (g.period + 1) 0) [pres]).tail)
      ((List.foldl (fun acc r => addInto acc r.cashflows)
        (List.replicate (g.period + 1) 0) [pres]).headD 0)
      (List.foldl (fun acc r => addYears acc r.yearlyData)
        (initAggYears g.period) [pres]) = _
    rw [List.foldl_cons, List.foldl_nil, List.foldl_cons, List.foldl_nil,
      addInto_replicate_zero pres.cashflows (g.period + 1) hcl]
  have hmet : sres.metrics = pres.metrics := by
    rw [hsres, hpres]
    show calculateFinancials _ _ _ _ _ _ _ _ _ _ = _
    rw [show ([projectBody p g ef].map (·.pvEnergy)).sum =
        (projectBody p g ef).pvEnergy by simp]
    rw [show ([projectBody p g ef].map (·.totalCapex)).sum =
        (projectBody p g ef).totalCapex by simp]
    rw [show ([projectBody p g ef].map (·.pvOpex)).sum =
        (projectBody p g ef).pvOpex by simp]
    rw [show ([projectBody p g ef].map (·.pvRevenue)).sum =
        (projectBody p g ef).pvRevenue by simp]
    rw [show ([projectBody p g ef].map (·.totalRevenue)).sum =
        (projectBody p g ef).totalRevenue by simp]
    rw [show ([projectBody p g ef].map (·.totalOpexNominal)).sum =
        (projectBody p g ef).totalOpexNominal by simp]
    have hcfs' : (List.foldl (fun acc r => addInto acc r.cashflows)
        (List.replicate (g.period + 1) 0) [projectBody p g ef]) =
        (projectBody p g ef).cashflows := by
      rw [List.foldl_cons, List.foldl_nil]
      exact addInto_replicate_zero _ _ (projectBody_cashflows_length p g ef)
    rw [hcfs']
    have hy1' : ((aggFinish ((projectBody p g ef).cashflows.tail)
        ((projectBody p g ef).cashflows.headD 0)
        (List.foldl (fun acc r => addYears acc r.yearlyData)
          (initAggYears g.period) [projectBody p g ef])).head?.map
          (fun d => d.energy)) =
        ((projectBody p g ef).yearlyData.head?.map (fun y => y.energy)) := by
      rw [List.foldl_cons, List.foldl_nil, aggFinish_head_energy,
        addYears_init_head_energy g.period _ (projectBody_yearlyData_length p g ef)]
    rw [List.foldl_cons, List.foldl_nil] at hy1' ⊢
    rw [hy1']
    rfl
  refine ⟨by rw [hsres]; simp [supplierBody], by rw [hsres]; simp [supplierBody],
    by rw [hsres]; simp [supplierBody], by rw [hsres]; simp [supplierBody],
    by rw [hsres]; simp [supplierBody], by rw [hsres]; simp [supplierBody],
    hcfs, hmet, by rw [hcfs], by rw [hcfs], ?_, ?_⟩
  · rw [hydagg]
    have h1 : ∀ (cfs : List ℚ) (cum : ℚ) (l : List AggYearRecord),
        (aggFinish cfs cum l).length = l.length := by
      intro cfs cum l
      induction l generalizing cfs cum with
      | nil => rfl
      | cons d rest ih => simp [aggFinish, ih]
    have h2 : ∀ (acc : List AggYearRecord) (ys : List YearRecord),
        (addYears acc ys).length = acc.length := by
      intro acc ys
      induction acc generalizing ys with
      | nil => cases ys <;> rfl
      | cons a rest ih => cases ys <;> simp [addYears, ih]
    rw [h1, h2]
    simp [initAggYears, hyl]
  · intro i sd pd hsd hpd
    have hiP : i < g.period := by
      rcases List.getElem?_eq_some.mp hpd with ⟨hlt, _⟩
      omega
    rw [hydagg, aggFinish_getElem?, addYears_getElem?] at hsd
    have hinit : (initAggYears g.period)[i]? =
        some (⟨i + 1, 0, 0, 0, 0, 0, 0⟩ : AggYearRecord) := by
      simp [initAggYears, List.getElem?_range hiP]
    rw [hinit] at hsd
    simp only [Option.map_some', Option.some.injEq] at hsd
    have hpdE : (pres.yearlyData.map YearRecord.energy).getD i 0 = pd.energy := by
      rw [List.getD_eq_getElem?_getD, List.getElem?_map, hpd]
      rfl
    have hpdR : (pres.yearlyData.map YearRecord.revenue).getD i 0 = pd.revenue := by
      rw [List.getD_eq_getElem?_getD, List.getElem?_map, hpd]
      rfl
    have hpdO : (pres.yearlyData.map YearRecord.opex).getD i 0 = pd.opex := by
      rw [List.getD_eq_getElem?_getD, List.getElem?_map, hpd]
      rfl
    have hpdN : (pres.yearlyData.map YearRecord.netCF).getD i 0 = pd.netCF := by
      rw [List.getD_eq_getElem?_getD, List.getElem?_map, hpd]
      rfl
    -- the project-side record at index i, from the C1 characterisation
    have hti : 1 + i = i + 1 := by omega
    have hpd' : pres.yearlyData[i]? =
        some ({ projectYear p g (1 + i) with
          cumulativeCF := -p.capex +
            ((((List.range' 1 g.period).map (projectYear p g)).take
              (i + 1)).map (·.netCF)).sum }) := by
      rw [hpres]
      show (addCumulative (-p.capex)
        ((List.range' 1 g.period).map (projectYear p g)))[i]? = _
      rw [addCumulative_getElem?, List.getElem?_map,
        List.getElem?_range' 1 1 hiP]
      simp
    rw [hpd'] at hpd
    have hpdv := Option.some.inj hpd
    subst hsd
    refine ⟨?_, ?_, ?_, ?_, ?_, ?_, ?_⟩
    · show i + 1 = pd.year
      rw [← hpdv]
      show i + 1 = 1 + i
      omega
    · show 0 + (pres.yearlyData.map YearRecord.energy).getD i 0 = pd.energy
      rw [zero_add, hpdE]
    · show 0 + (pres.yearlyData.map YearRecord.revenue).getD i 0 = pd.revenue
      rw [zero_add, hpdR]
    · show 0 + (pres.yearlyData.map YearRecord.opex).getD i 0 = pd.opex
      rw [zero_add, hpdO]
    · show 0 + (pres.yearlyData.map YearRecord.netCF).getD i 0 = pd.netCF
      rw [zero_add, hpdN]
    · show pres.cashflows.headD 0 + ((pres.cashflows.tail.take (i + 1)).sum) =
        pd.cumulativeCF
      rw [← hpdv]
      show _ = -p.capex + _
      rw [hpres]
      show ((-p.capex) :: (List.range' 1 g.period).map (netCFOf p g)).headD 0 +
        ((((-p.capex) :: (List.range' 1 g.period).map (netCFOf p g)).tail.take
          (i + 1)).sum) = _
      simp only [List.headD_cons, List.tail_cons]
      congr 1
      rw [List.map_take, List.map_map]
      rfl
    · intro hpos
      show (if 0 < 0 + (pres.yearlyData.map YearRecord.energy).getD i 0
          then (0 + (pres.yearlyData.map YearRecord.revenue).getD i 0) /
            (0 + (pres.yearlyData.map YearRecord.energy).getD i 0)
          else 0) = pd.tariff
      simp only [zero_add]
      rw [hpdE, hpdR]
      rw [if_pos hpos]
      have hrev : pd.revenue = pd.energy * pd.tariff := by
        rw [← hpdv]
        rfl
      rw [hrev, mul_div_cancel_left₀ _ (ne_of_gt hpos)]

/-- C6 counterexample: with 100 % degradation the year-2 energy is zero, so
the singleton supplier reports a year-2 tariff of `0` while the project's
own record keeps its PPA price `1` — the results are not identical in all
fields. -/
theorem C6_counterexample :
    ((calculateSupplier sX gX efW).map
      (fun r => (r.yearlyData.map AggYearRecord.tariff).getD 1 0)) ≠
    ((calculateProject pW gX efW).map
      (fun r => (r.yearlyData.map YearRecord.tariff).getD 1 0)) := by
  have hp : calculateProject pW gX efW = some (projectBody pW gX efW) := rfl
  have hs : calculateSupplier sX gX efW =
      some (supplierBody sX gX efW [some (projectBody pW gX efW)]
        [projectBody pW gX efW]) := rfl
  have hY : ((projectBody pW gX efW).yearlyData.map YearRecord.tariff).getD 1 0
      = 1 := by
    norm_num [projectBody, addCumulative, projectYear, List.range', tariffOf,
      sellY1, utilityTariffOf, pW, gX, netCFOf, revenueOf, opexOf, energyOf,
      opexVal, dfOf, freqOrOne]
  have hX : ((supplierBody sX gX efW [some (projectBody pW gX efW)]
      [projectBody pW gX efW]).yearlyData.map AggYearRecord.tariff).getD 1 0
      = 0 := by
    norm_num [supplierBody, aggFinish, addYears, addInto, initAggYears,
      projectBody, addCumulative, projectYear, List.range', tariffOf, sellY1,
      utilityTariffOf, pW, gX, sX, netCFOf, revenueOf, opexOf, energyOf,
      opexVal, dfOf, freqOrOne]
  rw [hs, hp]
  simp only [Option.map_some', ne_eq, Option.some.injEq]
  rw [hX, hY]
  norm_num

/-- Witness for C1 at the concrete enabled project `pW`. -/
theorem C1_witness : resW.cashflows.length = gW.period + 1 :=
  (C1_project_year_formulas pW gW efW resW rfl (by decide)).1

/-- Witness for C2 at the concrete supplier `sW`. -/
theorem C2_witness : sresW.cashflows.length = gW.period + 1 :=
  (C2_supplier_aggregation sW gW efW sresW rfl).1

/-- Witness for C3 at the concrete series `[-100, 50, 50, 50]`. -/
theorem C3_witness :
    calculatePayback [-100, 50, 50, 50] 3 = paybackClaim [-100, 50, 50, 50] 3 :=
  C3_payback.1 [-100, 50, 50, 50] 3 (by decide)

/-- Witness for C5 at the zero-capacity project `pZ`. -/
theorem C5_witness : resZ.metrics.lcoeCapex = 0 ∧ resZ.metrics.lcoe = 0 :=
  ⟨(C5_lcoe_decomposition.2 pZ gW efW resZ rfl rfl).1,
   (C5_lcoe_decomposition.2 pZ gW efW resZ rfl rfl).2.2.1⟩

/-- Witness for the amended C6 at the concrete supplier `sW`. -/
theorem C6_witness : sresW.cashflows = resW.cashflows :=
  (C6_singleton_supplier sW gW efW pW sresW resW rfl rfl rfl).2.2.2.2.2.2.1

/-- Witness for C8's zero-denominator MIRR case at the empty series. -/
theorem C8_witness : calculateMIRR [] gW = 0 :=
  C8_roi_and_zero_denominators.2.2 [] gW (by simp [mirrPvSum])

end LCOE
